import Mathlib

/-!
Verification of the sequential tool-calling orchestration core of a
retrieval-augmented QA service (backend/ai_generator.py and
backend/search_tools.py), as a shallow embedding in Lean 4.

The language-model call and the vector store are external collaborators;
they are embedded as oracle functions supplied to the orchestrator and to
the tools, exactly as the code treats them (opaque calls returning a
response object, respectively search results and links).

Conventions of the embedding:
* Python exceptions are `Except String` values (`.error msg` is a raised
  exception carrying `str(e) = msg`); code that catches them inspects the
  `Except`.
* `response.content[0].text` raises when the content list is empty or its
  first block is a tool-use block (which has no `text` attribute); this is
  embedded as an `Option String` (`none` = the exception propagates).
* Python truthiness tests (`if course_name:`, `if lesson_number:`,
  `if results.error:`, `if not url:`, `if tool.last_sources:`) are embedded
  by the explicit `pyTruthy*` helpers below: `None`, `""`, `0` and `[]` are
  falsy.
-/

namespace RagCore

/-- Keyword-argument mapping carried by a tool-use content block
(`content_block.input`). The orchestrator only forwards it. -/
def ToolInput := List (String × String)
deriving DecidableEq

/-- One content block of a model response: a text block, or a tool-use
block carrying an id, a tool name and its input mapping. -/
inductive ContentBlock where
  | text (t : String)
  | toolUse (id : String) (name : String) (input : ToolInput)
deriving DecidableEq

/-- One `tool_result` dict as built by
`AIGenerator._execute_tools_from_response`:
`{"type": "tool_result", "tool_use_id": ..., "content": ..., "is_error"?}`.
The constant `"type"` key is implicit; `is_error` is only ever set `True`
(absence embedded as `false`). -/
structure ToolResult where
  tool_use_id : String
  content : String
  is_error : Bool
deriving DecidableEq

/-- Content of one transcript message: the user query string, a model
response's block list, or a batched tool-result list. -/
inductive MsgContent where
  | str (s : String)
  | blocks (bs : List ContentBlock)
  | toolResults (rs : List ToolResult)
deriving DecidableEq

/-- One transcript message (`{"role": ..., "content": ...}`). -/
structure Message where
  role : String
  content : MsgContent
deriving DecidableEq

/-- A model response: `stop_reason` and the content block list. -/
structure ModelResponse where
  stop_reason : String
  content : List ContentBlock
deriving DecidableEq

/-- The model-call boundary (`self.client.messages.create`), an external
collaborator: from the transcript and whether tool definitions are
attached (`tools`/`tool_choice` present in the params) to a response.
The fixed `model`/`temperature`/`max_tokens` params and the system string
do not influence the control flow verified here and are not tracked. -/
def Client := List Message → Bool → ModelResponse

/-- The tool-execution boundary
(`tool_manager.execute_tool(name, **input)`): returns the tool's text or
raises (`.error msg` = an exception with message `msg`). -/
def ExecTool := String → ToolInput → Except String String

/-- Record of one model call made during a run: the messages passed and
whether tool definitions were attached to the call. -/
structure CallRecord where
  messages : List Message
  withTools : Bool
deriving DecidableEq

/-- Observable outcome of one `generate_response` run: the returned string
(`none` = an exception escaped while extracting text), the model calls
made in order, and how many tool invocations were executed. -/
structure RunResult where
  result : Option String
  calls : List CallRecord
  toolExecs : Nat
deriving DecidableEq

/-- `AIGenerator._extract_text`: `response.content[0].text`.
`none` embeds the `IndexError`/`AttributeError` raised when the content
list is empty or starts with a tool-use block. -/
def extract_text (response : ModelResponse) : Option String :=
  match response.content with
  | ContentBlock.text t :: _ => some t
  | _ => none

/-- `AIGenerator._execute_tools_from_response`: run every tool-use block
of the response content in order; a raised exception becomes an
error-flagged result with content `"Error executing <name>: <msg>"` and
sets the `had_error` flag. Returns `(tool_results, had_error)`. -/
def execute_tools_from_response (execTool : ExecTool) :
    List ContentBlock → List ToolResult × Bool
  | [] => ([], false)
  | ContentBlock.text _ :: rest => execute_tools_from_response execTool rest
  | ContentBlock.toolUse id name input :: rest =>
    match execTool name input with
    | Except.ok out =>
      (⟨id, out, false⟩ :: (execute_tools_from_response execTool rest).1,
       (execute_tools_from_response execTool rest).2)
    | Except.error msg =>
      (⟨id, "Error executing " ++ name ++ ": " ++ msg, true⟩ ::
        (execute_tools_from_response execTool rest).1, true)

/-- Number of tool-use blocks in a content list (= number of tool
executions performed on it by `execute_tools_from_response`). -/
def countToolUses : List ContentBlock → Nat
  | [] => 0
  | ContentBlock.text _ :: rest => countToolUses rest
  | ContentBlock.toolUse _ _ _ :: rest => countToolUses rest + 1

/-- The fixed fallback apology of `generate_response`. -/
def apology : String := "I apologize, but I was unable to complete your request."

/-- The `for round_num in range(max_tool_rounds + 1)` loop of
`AIGenerator.generate_response`, with `fuel` = remaining iterations
(`fuel = 0` is loop exhaustion, reachable only if `range` is empty) and
`round_num` the current index. Each iteration: model call with tools
attached; append the assistant message; return extracted text if the stop
reason is not `"tool_use"`; at `round_num >= max_tool_rounds` return via
`_force_final_synthesis` (one more model call without tools); otherwise
execute the tools, append the batched results as one user message, and on
`had_error` return via `_force_final_synthesis`, else loop. -/
def generateLoop (client : Client) (execTool : ExecTool) (maxToolRounds : Nat) :
    Nat → Nat → List Message → RunResult
  | 0, _, _ => ⟨some apology, [], 0⟩
  | fuel + 1, roundNum, messages =>
    let response := client messages true
    let m1 := messages ++ [⟨"assistant", MsgContent.blocks response.content⟩]
    if response.stop_reason ≠ "tool_use" then
      ⟨extract_text response, [⟨messages, true⟩], 0⟩
    else if maxToolRounds ≤ roundNum then
      ⟨extract_text (client m1 false), [⟨messages, true⟩, ⟨m1, false⟩], 0⟩
    else
      let tr := execute_tools_from_response execTool response.content
      let m2 := m1 ++ [⟨"user", MsgContent.toolResults tr.1⟩]
      if tr.2 then
        ⟨extract_text (client m2 false), [⟨messages, true⟩, ⟨m2, false⟩],
         countToolUses response.content⟩
      else
        let rest := generateLoop client execTool maxToolRounds fuel (roundNum + 1) m2
        ⟨rest.result, ⟨messages, true⟩ :: rest.calls,
         countToolUses response.content + rest.toolExecs⟩

/-- `AIGenerator.generate_response` on the path where `tools` and a
`tool_manager` are supplied: start from the single user message holding
the query and run the loop (`max_tool_rounds + 1` iterations available,
starting at round 0). -/
def generate_response (client : Client) (execTool : ExecTool)
    (maxToolRounds : Nat) (query : String) : RunResult :=
  generateLoop client execTool maxToolRounds (maxToolRounds + 1) 0
    [⟨"user", MsgContent.str query⟩]

/-- A model that requests tool use on every call on which tools are
attached, and answers with text on a tool-less (forced synthesis) call.
Mirrors the mock of the repository test `test_max_rounds_termination`. -/
def alwaysToolClient : Client := fun _ withTools =>
  if withTools then
    ⟨"tool_use", [ContentBlock.toolUse "toolu_xxx" "search_course_content"
      [("query", "test")]]⟩
  else
    ⟨"stop", [ContentBlock.text "I have gathered information from multiple searches."]⟩

/-- A tool executor that always succeeds. -/
def okExecTool : ExecTool := fun _ _ => Except.ok "Results"

/-- A tool executor that always raises (Python
`Mock(side_effect=Exception("Tool failed"))` of the repository tests). -/
def errExecTool : ExecTool := fun _ _ => Except.error "Tool failed"

/-- A model whose responses have a non-tool-use stop reason and an empty
content list; `response.content[0].text` raises on such a response. -/
def emptyContentClient : Client := fun _ _ => ⟨"stop", []⟩

/-- A model that always answers directly with a text block. -/
def textClient : Client := fun _ _ => ⟨"stop", [ContentBlock.text "ok"]⟩

/-! ## Python truthiness helpers -/

/-- Python truthiness of an `Optional[str]`: `None` and `""` are falsy. -/
def pyTruthyStr : Option String → Bool
  | none => false
  | some s => s != ""

/-- Python truthiness of an `Optional[int]`: `None` and `0` are falsy. -/
def pyTruthyInt : Option Int → Bool
  | none => false
  | some n => n != 0

/-! ## Search tool (backend/search_tools.py, `CourseSearchTool`) -/

/-- One metadata dict attached to a stored chunk, as read by
`CourseSearchTool._format_results` (`meta.get('course_title', 'unknown')`,
`meta.get('lesson_number')`); `none` = key absent. -/
structure Metadata where
  course_title : Option String
  lesson_number : Option Int
deriving DecidableEq

/-- Modelled from the spec: `SearchResults` lives in
backend/vector_store.py, which is not part of the verified sources; spec
§3 describes it as an ordered list of (document text, metadata) pairs plus
an optional error string, and the repository tests construct it as
`SearchResults(documents=..., metadata=..., distances=..., error=...)`.
The `distances` list is never read by the tools and is omitted. -/
structure SearchResults where
  documents : List String
  metadata : List Metadata
  error : Option String
deriving DecidableEq

/-- Modelled from the spec: `SearchResults.is_empty` (defined in the
missing vector_store.py) is true exactly when no documents matched, per
spec §4.2 step 3 and the tests `test_is_empty_true`/`test_is_empty_false`. -/
def SearchResults.is_empty (r : SearchResults) : Bool :=
  r.documents.isEmpty

/-- Modelled from the spec: the vector-store interface used by
`CourseSearchTool` — `search(query, course_name, lesson_number)` plus the
link getters, external collaborators per spec §1. Link getters return
`None` (= `none`) when no link is resolvable. -/
structure Store where
  search : String → Option String → Option Int → SearchResults
  get_lesson_link : String → Int → Option String
  get_course_link : String → Option String

/-- One source dict `{"text": ..., "url": ...}` recorded for the UI;
both keys are always present, `url` may be `None`. -/
structure Source where
  text : String
  url : Option String
deriving DecidableEq

/-- Formatting of one `(doc, meta)` pair inside
`CourseSearchTool._format_results`: the `[course - Lesson n]` header block
and the recorded source. The lesson link is fetched only when the
metadata has a lesson number (`is not None`, so lesson 0 counts), and a
falsy link (`if not url:`) falls back to the course-level link. -/
def format_one (store : Store) (doc : String) (meta : Metadata) : String × Source :=
  let course_title := meta.course_title.getD "unknown"
  let lessonPart :=
    match meta.lesson_number with
    | some n => " - Lesson " ++ toString n
    | none => ""
  let header := "[" ++ course_title ++ lessonPart ++ "]"
  let source_text := course_title ++ lessonPart
  let url0 :=
    match meta.lesson_number with
    | some n => store.get_lesson_link course_title n
    | none => none
  let url := if pyTruthyStr url0 then url0 else store.get_course_link course_title
  (header ++ "\n" ++ doc, ⟨source_text, url⟩)

/-- `CourseSearchTool._format_results`: format each `(doc, meta)` pair of
`zip(results.documents, results.metadata)`, join the blocks with a blank
line, and rebuild `self.last_sources` from scratch (`self.last_sources =
[]` then one append per pair). Returns `(formatted text, new
last_sources)`. -/
def format_results (store : Store) (results : SearchResults) :
    String × List Source :=
  let items := (results.documents.zip results.metadata).map
    (fun p => format_one store p.1 p.2)
  (String.intercalate "\n\n" (items.map Prod.fst), items.map Prod.snd)

/-- `CourseSearchTool.execute(query, course_name, lesson_number)` over the
instance state `last_sources`; returns `(text, new last_sources)`.
A truthy backend error string is returned verbatim; empty results produce
the "No relevant content found" message with qualifiers appended only for
truthy filters (Python `if course_name:` / `if lesson_number:`); otherwise
the results are formatted, which overwrites `last_sources`. The error and
empty branches leave `last_sources` untouched. -/
def CourseSearchTool.execute (store : Store) (last_sources : List Source)
    (query : String) (course_name : Option String) (lesson_number : Option Int) :
    String × List Source :=
  let results := store.search query course_name lesson_number
  if pyTruthyStr results.error then
    (results.error.getD "", last_sources)
  else if results.is_empty then
    let filter_info :=
      (match course_name with
        | some c => if c != "" then " in course \x27" ++ c ++ "\x27" else ""
        | none => "") ++
      (match lesson_number with
        | some n => if n != 0 then " in lesson " ++ toString n else ""
        | none => "")
    ("No relevant content found" ++ filter_info ++ ".", last_sources)
  else
    format_results store results

/-! ## Outline tool (backend/search_tools.py, `CourseOutlineTool`) -/

/-- One lesson dict decoded from the stored `lessons_json`
(`lesson.get('lesson_number', ...)`, `lesson.get('lesson_title', ...)`);
`none` = key absent. -/
structure Lesson where
  lesson_number : Option Int
  lesson_title : Option String
deriving DecidableEq

/-- One course-metadata dict of the catalog, as read by
`CourseOutlineTool.execute`; `none` = key absent. -/
structure CourseMeta where
  title : Option String
  course_link : Option String
  lessons_json : Option String
  lesson_count : Option Int
deriving DecidableEq

/-- Modelled from the spec: the backend pieces used by
`CourseOutlineTool` — the fuzzy title resolver and catalog listing of
vector_store.py (not part of the verified sources), the raw catalog read
`course_catalog.get(ids=[title])` reduced to its `metadatas` list (an
empty list covering both falsy cases of `if not results or not
results.get('metadatas')`), and `json.loads` on the stored lesson list.
`catalog_get` and `json_loads` may raise (`.error msg` = an exception
with message `msg`); both run inside the tool's `try` block. -/
structure OutlineStore where
  resolve_course_name : String → Option String
  get_all_courses_metadata : List CourseMeta
  catalog_get : String → Except String (List CourseMeta)
  json_loads : String → Except String (List Lesson)

/-- Sort key of `lessons.sort(key=lambda x: x.get('lesson_number', 0))`. -/
def lessonKey (l : Lesson) : Int :=
  l.lesson_number.getD 0

/-- Stable insertion of a lesson after all already-placed lessons with a
key not greater than its own. -/
def insertLesson (x : Lesson) : List Lesson → List Lesson
  | [] => [x]
  | y :: ys => if lessonKey y ≤ lessonKey x then y :: insertLesson x ys else x :: y :: ys

/-- Python's stable `list.sort(key=...)` on the decoded lessons: insert
each element in original order, each landing after earlier equal keys. -/
def sortLessons (ls : List Lesson) : List Lesson :=
  ls.foldl (fun acc x => insertLesson x acc) []

/-- One line `f"{num}. {lesson_title}"` of the outline, with defaults
`'?'` and `'Untitled'` for absent keys. -/
def format_lesson (l : Lesson) : String :=
  (match l.lesson_number with
    | some n => toString n
    | none => "?") ++ ". " ++ (l.lesson_title.getD "Untitled")

/-- The `try:` block of `CourseOutlineTool.execute` for a resolved title:
catalog read, the "Course data not found" early return, and the rendering
of the outline (decoding and sorting the lesson list when `lessons_json`
is truthy). `.error msg` = an uncaught exception reaching the `except`. -/
def outline_try_block (store : OutlineStore) (resolved_title : String) :
    Except String String :=
  match store.catalog_get resolved_title with
  | Except.error e => Except.error e
  | Except.ok metadatas =>
    match metadatas with
    | [] => Except.ok ("Course data not found for \x27" ++ resolved_title ++ "\x27.")
    | metadata :: _ =>
      let title := metadata.title.getD resolved_title
      let course_link := metadata.course_link.getD "No link available"
      if pyTruthyStr metadata.lessons_json then
        match store.json_loads (metadata.lessons_json.getD "") with
        | Except.error e => Except.error e
        | Except.ok lessons =>
          Except.ok (String.intercalate "\n"
            (["Course: " ++ title, "Link: " ++ course_link, "", "Lessons:"] ++
              (sortLessons lessons).map format_lesson))
      else
        Except.ok (String.intercalate "\n"
          ["Course: " ++ title, "Link: " ++ course_link, "",
           "No lesson information available."])

/-- `CourseOutlineTool.execute(course_name)`: list all courses when the
name is falsy; resolve the name (a falsy resolution is "no course");
otherwise run the `try:` block, and render any exception it raises as
`"Error retrieving course outline: <message>"` — the function itself
always returns a string. -/
def CourseOutlineTool.execute (store : OutlineStore) (course_name : Option String) :
    String :=
  if !pyTruthyStr course_name then
    let all_courses := store.get_all_courses_metadata
    if all_courses.isEmpty then
      "No courses found in the catalog."
    else
      String.intercalate "\n" ("Available courses:" :: all_courses.map
        (fun c => "- " ++ c.title.getD "Unknown" ++ " (" ++
          toString (c.lesson_count.getD 0) ++ " lessons)"))
  else
    let cn := course_name.getD ""
    let resolved := store.resolve_course_name cn
    if !pyTruthyStr resolved then
      "No course found matching \x27" ++ cn ++ "\x27."
    else
      match outline_try_block store (resolved.getD "") with
      | Except.ok s => s
      | Except.error e => "Error retrieving course outline: " ++ e

/-! ## Tool registry (backend/search_tools.py, `ToolManager`) -/

/-- A registered tool instance: the search tool carries its mutable
`last_sources` attribute, the outline tool has no such attribute. -/
inductive RTool where
  | search (store : Store) (last_sources : List Source)
  | outline (store : OutlineStore)

/-- The `name` of a tool's definition, under which `register_tool` stores
it. -/
def RTool.defName : RTool → String
  | RTool.search _ _ => "search_course_content"
  | RTool.outline _ => "get_course_outline"

/-- Keyword arguments forwarded by `ToolManager.execute_tool(name,
**kwargs)` to a tool's `execute`; `none` = keyword absent. -/
structure ToolArgs where
  query : Option String
  course_name : Option String
  lesson_number : Option Int

/-- Keyword binding plus dispatch to one tool instance's `execute`;
`.error` embeds the `TypeError` Python raises when a required keyword is
missing or an unexpected one is passed. Returns the text and the
(possibly mutated) instance. -/
def RTool.run : RTool → ToolArgs → Except String (String × RTool)
  | RTool.search store ls, args =>
    match args.query with
    | none => Except.error "execute() missing 1 required positional argument: \x27query\x27"
    | some q =>
      let r := CourseSearchTool.execute store ls q args.course_name args.lesson_number
      Except.ok (r.1, RTool.search store r.2)
  | RTool.outline store, args =>
    if args.query.isSome || args.lesson_number.isSome then
      Except.error "execute() got an unexpected keyword argument"
    else
      Except.ok (CourseOutlineTool.execute store args.course_name, RTool.outline store)

/-- `ToolManager` state: the `self.tools` dict, name → instance, in
insertion order. -/
structure ToolManager where
  tools : List (String × RTool)

/-- Dict write `self.tools[name] = tool`: overwrite in place on an
existing name, else append. -/
def dictInsert : List (String × RTool) → String → RTool → List (String × RTool)
  | [], name, t => [(name, t)]
  | (n, t0) :: rest, name, t =>
    if n = name then (n, t) :: rest else (n, t0) :: dictInsert rest name t

/-- `ToolManager.register_tool`: store the tool under its definition's
`name` (both concrete tools always carry one, so the `ValueError` branch
for a nameless definition is unreachable here). -/
def ToolManager.register_tool (m : ToolManager) (t : RTool) : ToolManager :=
  ⟨dictInsert m.tools t.defName t⟩

/-- Dict lookup `self.tools[tool_name]` (first match; a dict holds one
entry per name). -/
def lookupTool : List (String × RTool) → String → Option RTool
  | [], _ => none
  | (n, t) :: rest, name => if n = name then some t else lookupTool rest name

/-- Replacement of the instance stored under a name (the effect of the
dispatched tool mutating itself). -/
def updateTool : List (String × RTool) → String → RTool → List (String × RTool)
  | [], _, _ => []
  | (n, t0) :: rest, name, t =>
    if n = name then (n, t) :: rest else (n, t0) :: updateTool rest name t

/-- `ToolManager.execute_tool(tool_name, **kwargs)`: an unregistered name
yields the soft-fail text `"Tool '<name>' not found"` without touching
any state and without raising; a registered one dispatches (and may
raise). -/
def ToolManager.execute_tool (m : ToolManager) (tool_name : String)
    (args : ToolArgs) : Except String (String × ToolManager) :=
  match lookupTool m.tools tool_name with
  | none => Except.ok ("Tool \x27" ++ tool_name ++ "\x27 not found", m)
  | some t =>
    match t.run args with
    | Except.error e => Except.error e
    | Except.ok (out, t2) => Except.ok (out, ⟨updateTool m.tools tool_name t2⟩)

/-- The scan of `ToolManager.get_last_sources`: first registered tool
that has a `last_sources` attribute holding a truthy (non-empty) list. -/
def getLastSourcesList : List (String × RTool) → List Source
  | [] => []
  | (_, RTool.search _ ls) :: rest =>
    if ls.isEmpty then getLastSourcesList rest else ls
  | (_, RTool.outline _) :: rest => getLastSourcesList rest

/-- `ToolManager.get_last_sources`, as a state transformer: the method
body only reads, so the state comes back unchanged. -/
def ToolManager.get_last_sources (m : ToolManager) : List Source × ToolManager :=
  (getLastSourcesList m.tools, m)

/-- Effect of `ToolManager.reset_sources` on one tool: `last_sources = []`
where the attribute exists, nothing otherwise. -/
def resetRTool : RTool → RTool
  | RTool.search store _ => RTool.search store []
  | RTool.outline store => RTool.outline store

/-- `ToolManager.reset_sources`: clear every source-tracking tool. -/
def ToolManager.reset_sources (m : ToolManager) : ToolManager :=
  ⟨m.tools.map (fun p => (p.1, resetRTool p.2))⟩

/-- Whether a tool holds no sources (holds after `reset_sources`). -/
def RTool.sourcesCleared : RTool → Bool
  | RTool.search _ ls => ls.isEmpty
  | RTool.outline _ => true

/-! ## Concrete stores used by counterexamples and witnesses -/

/-- A backend whose search always matches nothing and that resolves no
links. -/
def emptySearchStore : Store :=
  ⟨fun _ _ _ => ⟨[], [], none⟩, fun _ _ => none, fun _ => none⟩

/-- A backend returning two matched chunks (the `sample_search_results`
fixture of the repository tests). -/
def twoChunkStore : Store :=
  ⟨fun _ _ _ =>
    ⟨["MCP is a protocol that enables AI to interact with external tools.",
      "The MCP server provides context and capabilities to AI models."],
     [⟨some "MCP: Build Rich-Context AI Apps", some 1⟩,
      ⟨some "MCP: Build Rich-Context AI Apps", some 1⟩],
     none⟩,
   fun _ _ => some "https://example.com/course/lesson1",
   fun _ => some "https://example.com/course"⟩

/-- An outline backend whose stored lesson list fails to decode
(`lessons_json = "invalid json{\x7b{"` as in the repository test
`test_outline_tool_handles_json_parse_error`). -/
def badJsonOutlineStore : OutlineStore :=
  ⟨fun _ => some "Test Course",
   [],
   fun _ => Except.ok
     [⟨some "Test Course", some "http://example.com", some "invalid json", some 2⟩],
   fun _ => Except.error "Expecting value: line 1 column 1 (char 0)"⟩

/-- The initial transcript of a run whose query is "Search for something". -/
def searchQueryMessages : List Message :=
  [⟨"user", MsgContent.str "Search for something"⟩]

/-! ## Helper lemmas -/

/-- A tool-use block whose execution raises shows up in the batched
results of its round as an error-flagged result with the
`"Error executing <name>: <msg>"` content. -/
theorem mem_execute_tools_error (execTool : ExecTool) (bs : List ContentBlock)
    (id name : String) (input : ToolInput) (msg : String)
    (hmem : ContentBlock.toolUse id name input ∈ bs)
    (herr : execTool name input = Except.error msg) :
    (⟨id, "Error executing " ++ name ++ ": " ++ msg, true⟩ : ToolResult) ∈
      (execute_tools_from_response execTool bs).1 := by
  induction bs with
  | nil => cases hmem
  | cons b rest ih =>
    cases hmem with
    | head => simp [execute_tools_from_response, herr]
    | tail _ hm =>
      have hr := ih hm
      cases b with
      | text t => simpa [execute_tools_from_response] using hr
      | toolUse id2 n2 i2 =>
        cases hex : execTool n2 i2 with
        | ok out =>
          simp only [execute_tools_from_response, hex, List.mem_cons]
          exact Or.inr hr
        | error m2 =>
          simp only [execute_tools_from_response, hex, List.mem_cons]
          exact Or.inr hr

/-- Every run of the loop yields a returned string when every response
the model produces has a leading text block, and makes at most
`fuel + 1` model calls. -/
theorem generateLoop_total (client : Client) (execTool : ExecTool)
    (maxToolRounds : Nat)
    (hx : ∀ msgs b, (extract_text (client msgs b)).isSome = true) :
    ∀ fuel roundNum messages,
      ((generateLoop client execTool maxToolRounds fuel roundNum
          messages).result.isSome = true) ∧
      (generateLoop client execTool maxToolRounds fuel roundNum
          messages).calls.length ≤ fuel + 1 := by
  intro fuel
  induction fuel with
  | zero =>
    intro roundNum messages
    exact ⟨rfl, by simp [generateLoop]⟩
  | succ n ih =>
    intro roundNum messages
    by_cases h1 : (client messages true).stop_reason ≠ "tool_use"
    · constructor
      · simp [generateLoop, h1, hx]
      · simp [generateLoop, h1]
    · by_cases h2 : maxToolRounds ≤ roundNum
      · constructor
        · simp [generateLoop, h1, h2, hx]
        · simp [generateLoop, h1, h2]
      · by_cases h3 : (execute_tools_from_response execTool
            (client messages true).content).2 = true
        · constructor
          · simp [generateLoop, h1, h2, h3, hx]
          · simp [generateLoop, h1, h2, h3]
        · have hrec := ih (roundNum + 1)
            (messages ++
             [⟨"assistant", MsgContent.blocks (client messages true).content⟩,
              ⟨"user", MsgContent.toolResults (execute_tools_from_response execTool
                (client messages true).content).1⟩])
          constructor
          · simpa [generateLoop, h1, h2, h3] using hrec.1
          · have := hrec.2
            simp [generateLoop, h1, h2, h3]
            omega

/-! ## Claim theorems -/

/-- C1. The claim states that with `maxToolRounds = 2` and a model that
requests tool use on every call, exactly 3 model calls are made, the last
one without tools, with model calls = roundsUsed + 1 ≤ maxToolRounds + 1.
The code disagrees: the loop attaches tools to the call of round
`max_tool_rounds` as well, discards that response's tool requests, and
then `_force_final_synthesis` makes a further call, so the run makes 4
model calls (3 with tools, 1 without) for 2 executed tool rounds — as
this evaluation of the embedding shows. The repository's own test
`test_max_rounds_termination` asserts `call_count == 3` for this very
scenario, so the code contradicts its own test suite (code_bug). -/
theorem generate_response_four_calls_at_max_rounds_two :
    (generate_response alwaysToolClient okExecTool 2 "Keep searching").calls.map
        CallRecord.withTools = [true, true, true, false] ∧
    (generate_response alwaysToolClient okExecTool 2 "Keep searching").calls.length = 4 ∧
    (generate_response alwaysToolClient okExecTool 2 "Keep searching").toolExecs = 2 := by
  exact ⟨by decide, rfl, rfl⟩

/-- C2. Tools and a tool executor supplied, first model response has a
stop reason other than `"tool_use"`: the run makes exactly that one model
call (with tools attached), executes zero tools, and its result is the
text extracted from that very response (verbatim; `none` embeds the
exception `response.content[0].text` would raise on a text-less
response). -/
theorem generate_response_direct_answer (client : Client) (execTool : ExecTool)
    (maxToolRounds : Nat) (query : String)
    (h : (client [⟨"user", MsgContent.str query⟩] true).stop_reason ≠ "tool_use") :
    generate_response client execTool maxToolRounds query =
      ⟨extract_text (client [⟨"user", MsgContent.str query⟩] true),
       [⟨[⟨"user", MsgContent.str query⟩], true⟩], 0⟩ := by
  simp [generate_response, generateLoop, h]

/-- C2 witness: a concrete direct-answer run. -/
theorem generate_response_direct_answer_witness :
    ((textClient [⟨"user", MsgContent.str "What is Python?"⟩] true).stop_reason ≠
        "tool_use") ∧
    generate_response textClient okExecTool 2 "What is Python?" =
      ⟨extract_text (textClient [⟨"user", MsgContent.str "What is Python?"⟩] true),
       [⟨[⟨"user", MsgContent.str "What is Python?"⟩], true⟩], 0⟩ :=
  ⟨by decide,
   generate_response_direct_answer textClient okExecTool 2 "What is Python?" (by decide)⟩

/-- C3. In any loop configuration with budget left (`roundNum <
maxToolRounds`, so the round's tools are executed) whose response
requests tool use and whose tool execution flags an error: the run ends
with exactly one further model call — a forced synthesis with no tools
attached, on the transcript extended by the assistant message and by one
single user message batching the whole round's tool results — and no
further tool executions beyond this round's; and every invocation that
raised is represented among those batched results as an error-flagged
result with content `"Error executing <toolName>: <message>"`. -/
theorem generateLoop_tool_error_forces_final_synthesis (client : Client)
    (execTool : ExecTool) (maxToolRounds fuel roundNum : Nat)
    (messages : List Message)
    (h1 : (client messages true).stop_reason = "tool_use")
    (h2 : roundNum < maxToolRounds)
    (h3 : (execute_tools_from_response execTool
        (client messages true).content).2 = true) :
    (generateLoop client execTool maxToolRounds (fuel + 1) roundNum messages =
      ⟨extract_text (client (messages ++
          [⟨"assistant", MsgContent.blocks (client messages true).content⟩,
           ⟨"user", MsgContent.toolResults (execute_tools_from_response execTool
              (client messages true).content).1⟩]) false),
       [⟨messages, true⟩,
        ⟨messages ++
          [⟨"assistant", MsgContent.blocks (client messages true).content⟩,
           ⟨"user", MsgContent.toolResults (execute_tools_from_response execTool
              (client messages true).content).1⟩], false⟩],
       countToolUses (client messages true).content⟩) ∧
    (∀ id name input msg,
      ContentBlock.toolUse id name input ∈ (client messages true).content →
      execTool name input = Except.error msg →
      (⟨id, "Error executing " ++ name ++ ": " ++ msg, true⟩ : ToolResult) ∈
        (execute_tools_from_response execTool (client messages true).content).1) := by
  constructor
  · have h2' : ¬ maxToolRounds ≤ roundNum := Nat.not_le.mpr h2
    simp [generateLoop, h1, h2', h3]
  · intro id name input msg hm he
    exact mem_execute_tools_error execTool _ id name input msg hm he

/-- C3 witness: round 0 of a budget-2 run whose single tool invocation
raises `"Tool failed"`. -/
theorem generateLoop_tool_error_forces_final_synthesis_witness :
    ((alwaysToolClient searchQueryMessages true).stop_reason = "tool_use" ∧
      0 < 2 ∧
      (execute_tools_from_response errExecTool
        (alwaysToolClient searchQueryMessages true).content).2 = true) ∧
    (generateLoop alwaysToolClient errExecTool 2 3 0 searchQueryMessages =
      ⟨extract_text (alwaysToolClient (searchQueryMessages ++
          [⟨"assistant", MsgContent.blocks
              (alwaysToolClient searchQueryMessages true).content⟩,
           ⟨"user", MsgContent.toolResults (execute_tools_from_response errExecTool
              (alwaysToolClient searchQueryMessages true).content).1⟩]) false),
       [⟨searchQueryMessages, true⟩,
        ⟨searchQueryMessages ++
          [⟨"assistant", MsgContent.blocks
              (alwaysToolClient searchQueryMessages true).content⟩,
           ⟨"user", MsgContent.toolResults (execute_tools_from_response errExecTool
              (alwaysToolClient searchQueryMessages true).content).1⟩], false⟩],
       countToolUses (alwaysToolClient searchQueryMessages true).content⟩) :=
  ⟨⟨by decide, by decide, by decide⟩,
   (generateLoop_tool_error_forces_final_synthesis alwaysToolClient errExecTool
      2 2 0 searchQueryMessages (by decide) (by decide) (by decide)).1⟩

/-- C9 counterexample: all model calls and tool executions return (the
model is a total oracle; no tool ever runs), yet the run's result is
`none` — the `IndexError` raised by `response.content[0].text` on a
response with an empty content list escapes `generate_response` instead
of a string being returned, refuting the claim as stated. -/
theorem generate_response_raises_on_empty_content :
    (generate_response emptyContentClient okExecTool 2 "What is Python?").result =
      none := by
  decide

/-- C9 (amended): under the additional proviso that every model response
has a leading text block (so text extraction cannot raise), a run whose
model calls and tool executions all return terminates with at most
`maxToolRounds + 2` model calls and returns a string (model-produced
text, or the fixed apology on loop exhaustion), never raising from the
loop itself. -/
theorem generate_response_total_and_call_bound (client : Client)
    (execTool : ExecTool) (maxToolRounds : Nat) (query : String)
    (hx : ∀ msgs b, (extract_text (client msgs b)).isSome = true) :
    ((generate_response client execTool maxToolRounds query).result.isSome = true) ∧
    (generate_response client execTool maxToolRounds query).calls.length ≤
      maxToolRounds + 2 := by
  have h := generateLoop_total client execTool maxToolRounds hx (maxToolRounds + 1)
    0 [⟨"user", MsgContent.str query⟩]
  exact ⟨h.1, h.2⟩

/-- C9 witness: a run against a model that always answers with text. -/
theorem generate_response_total_and_call_bound_witness :
    (∀ msgs b, (extract_text (textClient msgs b)).isSome = true) ∧
    (((generate_response textClient okExecTool 2 "hi").result.isSome = true) ∧
      (generate_response textClient okExecTool 2 "hi").calls.length ≤ 4) :=
  ⟨fun _ _ => rfl,
   generate_response_total_and_call_bound textClient okExecTool 2 "hi"
     (fun _ _ => rfl)⟩

/-- C4 counterexample: a supplied lesson filter of 0 is dropped from the
empty-results message — `if lesson_number:` treats 0 as absent — so the
qualifier does not appear although the filter was supplied, refuting the
claim as stated. -/
theorem search_empty_lesson_zero_drops_qualifier :
    (CourseSearchTool.execute emptySearchStore [] "topic" (some "X") (some 0)).1 =
      "No relevant content found in course \x27X\x27." ∧
    (CourseSearchTool.execute emptySearchStore [] "topic" (some "X") (some 0)).1 ≠
      "No relevant content found in course \x27X\x27 in lesson 0." := by
  decide

/-- C4 (amended): for empty, non-error backend results, a supplied
truthy course filter `c` (non-empty string) alone yields exactly
`"No relevant content found in course '<c>'."`, and together with a
truthy lesson filter `n` (non-zero) exactly
`"No relevant content found in course '<c>' in lesson <n>."` — course
qualifier before lesson qualifier; a supplied falsy filter (empty course
name, lesson number 0) is treated as absent. -/
theorem search_empty_results_message (store : Store) (ls : List Source)
    (q c : String) (n : Int) (hc : c ≠ "") (hn : n ≠ 0) :
    ((store.search q (some c) none).error = none →
      (store.search q (some c) none).documents = [] →
      (CourseSearchTool.execute store ls q (some c) none).1 =
        "No relevant content found in course \x27" ++ c ++ "\x27.") ∧
    ((store.search q (some c) (some n)).error = none →
      (store.search q (some c) (some n)).documents = [] →
      (CourseSearchTool.execute store ls q (some c) (some n)).1 =
        "No relevant content found in course \x27" ++ c ++ "\x27 in lesson " ++
          toString n ++ ".") := by
  have hc' : (c != "") = true := by simpa using hc
  have hn' : (n != 0) = true := by simpa using hn
  constructor
  · intro he hd
    simp only [CourseSearchTool.execute, he, hd, pyTruthyStr,
      SearchResults.is_empty, List.isEmpty_nil, if_true, hc',
      Bool.false_eq_true, if_false, ite_true]
    simp only [String.append_empty, String.append_assoc]
    rfl
  · intro he hd
    simp only [CourseSearchTool.execute, he, hd, pyTruthyStr,
      SearchResults.is_empty, List.isEmpty_nil, if_true, hc', hn',
      Bool.false_eq_true, if_false, ite_true]
    simp only [String.append_empty, String.append_assoc]
    rfl

/-- C4 witness: concrete empty search with both filters truthy. -/
theorem search_empty_results_message_witness :
    (("Some Course" : String) ≠ "" ∧ (5 : Int) ≠ 0) ∧
    (CourseSearchTool.execute emptySearchStore [] "topic"
        (some "Some Course") (some 5)).1 =
      "No relevant content found in course \x27Some Course\x27 in lesson 5." :=
  ⟨⟨by decide, by decide⟩, by
    have h := (search_empty_results_message emptySearchStore [] "topic"
      "Some Course" 5 (by decide) (by decide)).2 rfl rfl
    exact h.trans (by decide)⟩

/-- C5 counterexample: a call whose backend results are empty returns
zero documents, so per the claim `last_sources` should afterwards hold
zero entries; the code only rebuilds the slot inside `_format_results`,
which this call never reaches, so the stale entry of an earlier call
survives, refuting the claim as stated. -/
theorem search_empty_call_keeps_stale_sources :
    (CourseSearchTool.execute emptySearchStore
        [⟨"Old Course", none⟩] "q" none none).2 = [⟨"Old Course", none⟩] ∧
    (CourseSearchTool.execute emptySearchStore
        [⟨"Old Course", none⟩] "q" none none).2 ≠ [] := by
  decide

/-- C5 (amended): on every call whose backend results are non-error and
non-empty — exactly the calls that reach `_format_results` — the
`last_sources` slot is replaced (overwrite, not append) by the sources
derived from that call's results alone: one `{text, url}` entry per
returned document (documents and metadata being aligned), nothing
retained from any earlier call; a call with a truthy error or empty
results leaves the slot untouched. -/
theorem search_overwrites_sources_on_formatting (store : Store)
    (ls : List Source) (q : String) (cn : Option String) (n : Option Int)
    (hmd : (store.search q cn n).metadata.length =
      (store.search q cn n).documents.length) :
    ((store.search q cn n).error = none → (store.search q cn n).documents ≠ [] →
      ((CourseSearchTool.execute store ls q cn n).2 =
          (format_results store (store.search q cn n)).2 ∧
        (CourseSearchTool.execute store ls q cn n).2.length =
          (store.search q cn n).documents.length)) ∧
    (pyTruthyStr (store.search q cn n).error = true ∨
        (store.search q cn n).documents = [] →
      (CourseSearchTool.execute store ls q cn n).2 = ls) := by
  constructor
  · intro he hd
    have hne : (store.search q cn n).documents.isEmpty = false := by
      simpa [List.isEmpty_iff] using hd
    constructor
    · simp [CourseSearchTool.execute, he, pyTruthyStr,
        SearchResults.is_empty, hne]
    · simp [CourseSearchTool.execute, he, pyTruthyStr,
        SearchResults.is_empty, hne, format_results, hmd]
  · intro h
    by_cases herr : pyTruthyStr (store.search q cn n).error = true
    · simp [CourseSearchTool.execute, herr]
    · have hd : (store.search q cn n).documents = [] := by
        cases h with
        | inl h1 => exact absurd h1 herr
        | inr h2 => exact h2
      simp [CourseSearchTool.execute, herr, SearchResults.is_empty, hd]

/-- C5 witness: a two-chunk search overwrites a stale one-entry slot. -/
theorem search_overwrites_sources_on_formatting_witness :
    ((twoChunkStore.search "What is MCP?" none none).metadata.length =
      (twoChunkStore.search "What is MCP?" none none).documents.length) ∧
    ((CourseSearchTool.execute twoChunkStore [⟨"Old Course", none⟩]
        "What is MCP?" none none).2 =
      (format_results twoChunkStore
        (twoChunkStore.search "What is MCP?" none none)).2 ∧
     (CourseSearchTool.execute twoChunkStore [⟨"Old Course", none⟩]
        "What is MCP?" none none).2.length =
      (twoChunkStore.search "What is MCP?" none none).documents.length) :=
  ⟨rfl,
   (search_overwrites_sources_on_formatting twoChunkStore [⟨"Old Course", none⟩]
      "What is MCP?" none none rfl).1 rfl (by decide)⟩

/-- C6. Registry source lifecycle: with a freshly registered search tool,
`get_last_sources` yields `[]` before any search has executed; executing
one search (through the registry) whose backend returns two matched
chunks leaves the registry reporting exactly 2 sources (each a
`{text, url}` record by construction of `Source`); after `reset_sources`
it reports `[]` again. -/
theorem registry_source_lifecycle (store : Store) (q d1 d2 : String)
    (md1 md2 : Metadata)
    (h : store.search q none none = ⟨[d1, d2], [md1, md2], none⟩) :
    ((ToolManager.register_tool ⟨[]⟩ (RTool.search store [])).get_last_sources.1
        = []) ∧
    (∃ out m1,
      (ToolManager.register_tool ⟨[]⟩ (RTool.search store [])).execute_tool
          "search_course_content" ⟨some q, none, none⟩ = Except.ok (out, m1) ∧
      m1.get_last_sources.1.length = 2 ∧
      m1.reset_sources.get_last_sources.1 = []) := by
  constructor
  · rfl
  · refine ⟨(format_results store ⟨[d1, d2], [md1, md2], none⟩).1,
      ⟨[("search_course_content", RTool.search store
        (format_results store ⟨[d1, d2], [md1, md2], none⟩).2)]⟩, ?_, ?_, ?_⟩
    · simp [ToolManager.register_tool, ToolManager.execute_tool, dictInsert,
        lookupTool, RTool.defName, RTool.run, CourseSearchTool.execute, h,
        updateTool, pyTruthyStr, SearchResults.is_empty]
    · simp [ToolManager.get_last_sources, getLastSourcesList, format_results,
        List.isEmpty_iff]
    · rfl

/-- C6 witness: the concrete two-chunk backend. -/
theorem registry_source_lifecycle_witness :
    (twoChunkStore.search "What is MCP?" none none =
      ⟨["MCP is a protocol that enables AI to interact with external tools.",
        "The MCP server provides context and capabilities to AI models."],
       [⟨some "MCP: Build Rich-Context AI Apps", some 1⟩,
        ⟨some "MCP: Build Rich-Context AI Apps", some 1⟩], none⟩) ∧
    (((ToolManager.register_tool ⟨[]⟩ (RTool.search twoChunkStore
          [])).get_last_sources.1 = []) ∧
     (∃ out m1,
       (ToolManager.register_tool ⟨[]⟩ (RTool.search twoChunkStore
          [])).execute_tool "search_course_content"
          ⟨some "What is MCP?", none, none⟩ = Except.ok (out, m1) ∧
       m1.get_last_sources.1.length = 2 ∧
       m1.reset_sources.get_last_sources.1 = [])) :=
  ⟨rfl, registry_source_lifecycle twoChunkStore "What is MCP?" _ _ _ _ rfl⟩

/-- C7. `execute_tool` on a name not present in the registry returns the
soft-fail string `"Tool '<name>' not found"` — a string containing
`"not found"` — with the registry untouched, and raises no exception
(`Except.ok`), for every argument mapping. -/
theorem execute_tool_unknown_name (m : ToolManager) (name : String)
    (args : ToolArgs) (h : lookupTool m.tools name = none) :
    ToolManager.execute_tool m name args =
      Except.ok ("Tool \x27" ++ name ++ "\x27 not found", m) ∧
    ∃ pre post, ("Tool \x27" ++ name ++ "\x27 not found" : String) =
      pre ++ "not found" ++ post := by
  constructor
  · simp [ToolManager.execute_tool, h]
  · refine ⟨"Tool \x27" ++ name ++ "\x27 ", "", ?_⟩
    simp only [String.append_empty, String.append_assoc]
    rfl

/-- C7 witness: an unregistered name against a one-tool registry. -/
theorem execute_tool_unknown_name_witness :
    (lookupTool (ToolManager.mk [("search_course_content",
        RTool.search emptySearchStore [])]).tools "nonexistent_tool" = none) ∧
    (ToolManager.execute_tool
        ⟨[("search_course_content", RTool.search emptySearchStore [])]⟩
        "nonexistent_tool" ⟨some "test", none, none⟩ =
      Except.ok ("Tool \x27" ++ "nonexistent_tool" ++ "\x27 not found",
        ⟨[("search_course_content", RTool.search emptySearchStore [])]⟩) ∧
     ∃ pre post, ("Tool \x27" ++ "nonexistent_tool" ++ "\x27 not found" : String) =
       pre ++ "not found" ++ post) :=
  ⟨rfl, execute_tool_unknown_name
    ⟨[("search_course_content", RTool.search emptySearchStore [])]⟩
    "nonexistent_tool" ⟨some "test", none, none⟩ rfl⟩

/-- C8. For a resolvable course name, any exception raised inside the
outline tool's `try:` block while decoding the stored lesson metadata is
caught and surfaced as the string
`"Error retrieving course outline: <message>"`; `execute` returns that
string instead of raising. -/
theorem outline_decode_failure_caught (store : OutlineStore)
    (cn rt j msg : String) (meta : CourseMeta) (rest : List CourseMeta)
    (hcn : cn ≠ "")
    (hres : store.resolve_course_name cn = some rt) (hrt : rt ≠ "")
    (hcat : store.catalog_get rt = Except.ok (meta :: rest))
    (hlj : meta.lessons_json = some j) (hj : j ≠ "")
    (hdec : store.json_loads j = Except.error msg) :
    CourseOutlineTool.execute store (some cn) =
      "Error retrieving course outline: " ++ msg := by
  have hcn' : (cn != "") = true := by simpa using hcn
  have hrt' : (rt != "") = true := by simpa using hrt
  have hj' : (j != "") = true := by simpa using hj
  simp [CourseOutlineTool.execute, outline_try_block, pyTruthyStr, hcn', hres,
    hrt', hcat, hlj, hj', hdec]

/-- C8 witness: the malformed-lessons backend of the repository test
`test_outline_tool_handles_json_parse_error`. -/
theorem outline_decode_failure_caught_witness :
    (("Test Course" : String) ≠ "" ∧
      badJsonOutlineStore.resolve_course_name "Test Course" = some "Test Course" ∧
      badJsonOutlineStore.json_loads "invalid json" =
        Except.error "Expecting value: line 1 column 1 (char 0)") ∧
    CourseOutlineTool.execute badJsonOutlineStore (some "Test Course") =
      "Error retrieving course outline: Expecting value: line 1 column 1 (char 0)" :=
  ⟨⟨by decide, rfl, rfl⟩, by
    have h := outline_decode_failure_caught badJsonOutlineStore "Test Course"
      "Test Course" "invalid json" "Expecting value: line 1 column 1 (char 0)"
      ⟨some "Test Course", some "http://example.com", some "invalid json", some 2⟩
      [] (by decide) rfl (by decide) rfl rfl (by decide) rfl
    exact h.trans (by decide)⟩

/-- C10. Reading the registry's sources is non-destructive: the method
returns the state unchanged, so two consecutive `get_last_sources` calls
with no intervening operation return equal results; and `reset_sources`
is what clears the slots — afterwards every registered tool that tracks
sources holds `[]`. -/
theorem get_last_sources_nondestructive (m : ToolManager) :
    (m.get_last_sources.2 = m) ∧
    (m.get_last_sources.1 = m.get_last_sources.2.get_last_sources.1) ∧
    (m.reset_sources.tools.all (fun p => p.2.sourcesCleared) = true) := by
  refine ⟨rfl, rfl, ?_⟩
  have hc : ∀ t : RTool, (resetRTool t).sourcesCleared = true := by
    intro t; cases t <;> rfl
  simp only [ToolManager.reset_sources, List.all_eq_true]
  intro p hp
  rcases List.mem_map.mp hp with ⟨p0, _, rfl⟩
  exact hc p0.2

end RagCore
